import Mathlib

set_option maxRecDepth 3000

/-!
# Shallow embedding of the JSip-8 CHIP-8 interpreter (src/jsip-8.js)

The source is a JavaScript class `JSip8`.  Its state fields are plain JS
arrays and numbers, so the embedding models the fragment of JavaScript value
semantics that the interpreter can actually reach:

* every number the program manipulates is an IEEE double holding an
  integer, or a dyadic fraction produced by repeated `v[x] /= 2`, all far
  inside the range where doubles are exact; numbers are therefore modelled
  exactly as dyadic rationals `Dy` (`JsVal.num`);
* fresh `new Array(n)` slots and out-of-range array reads are `undefined`
  (`JsVal.undefined`); arithmetic on `undefined` yields `NaN` (`JsVal.nan`);
* `clearScreen` stores one and the same freshly allocated inner array into
  all 63 slots of the outer array (`Array.prototype.fill` copies the
  reference, it does not clone).  Array references are modelled explicitly
  (`JsVal.aref r`, an index into a heap of allocated inner arrays) so that
  the aliasing the source produces is preserved;
* the only JS paths of this program that would manufacture strings
  (applying `+` to an array reference, which string-concatenates its joined
  form) are collapsed into the sink value `JsVal.corrupt`.  No instruction
  sequence examined by any theorem below reaches those paths; `corrupt`
  only marks where the model is coarser than full ECMAScript.
-/

/-- Exact value of an IEEE double in the range this program exercises: the
dyadic rational `m / 2 ^ e`.  Doubles represent dyadic rationals exactly
(up to precision limits far beyond anything this interpreter computes), so
this carrier loses nothing against JS number semantics. -/
structure Dy where
  m : ℤ
  e : ℕ
  deriving DecidableEq

/-- Strip factors of two so that every stored `Dy` is canonical (odd
mantissa or zero exponent); all arithmetic below returns canonical values,
so the derived structural equality coincides with numeric equality. -/
def canonDy : ℤ → ℕ → Dy
  | m, 0 => ⟨m, 0⟩
  | m, e + 1 => if m % 2 = 0 then canonDy (m / 2) e else ⟨m, e + 1⟩

instance (n : ℕ) : OfNat Dy n := ⟨⟨Int.ofNat n, 0⟩⟩

instance : NatCast Dy := ⟨fun n => ⟨(n : ℤ), 0⟩⟩

instance : IntCast Dy := ⟨fun n => ⟨n, 0⟩⟩

instance : Add Dy := ⟨fun a b => canonDy (a.m * 2 ^ b.e + b.m * 2 ^ a.e) (a.e + b.e)⟩

instance : Sub Dy := ⟨fun a b => canonDy (a.m * 2 ^ b.e - b.m * 2 ^ a.e) (a.e + b.e)⟩

instance : Mul Dy := ⟨fun a b => canonDy (a.m * b.m) (a.e + b.e)⟩

instance : LT Dy := ⟨fun a b => a.m * 2 ^ b.e < b.m * 2 ^ a.e⟩

instance (a b : Dy) : Decidable (a < b) :=
  decidable_of_iff (a.m * 2 ^ b.e < b.m * 2 ^ a.e) Iff.rfl

/-- Exact halving, the effect of the source's only division (`v[x] /= 2`). -/
def halfDy (a : Dy) : Dy := canonDy a.m (a.e + 1)

/-- Truncation toward zero, as ES ToInt32 performs on the numeric value
before wrapping. -/
def dyTrunc (a : Dy) : ℤ :=
  if 0 ≤ a.m then ((a.m.toNat >>> a.e : ℕ) : ℤ)
  else -((((-a.m).toNat >>> a.e : ℕ) : ℤ))

/-- JavaScript runtime values reachable by this program: exact numbers,
`undefined`, `NaN`, references to heap-allocated arrays, and `corrupt`, the
explicit sink for the string-producing coercion corners described above. -/
inductive JsVal where
  | num (q : Dy)
  | undefined
  | nan
  | aref (r : ℕ)
  | corrupt
  deriving DecidableEq

/-- ES ToNumber (after ToPrimitive), restricted to the values this program
can build.  `undefined` coerces to NaN.  An array reference coerces through
its joined string: an empty array gives `""` hence 0, a one-element array
gives that element back, and any longer array joins with commas and is
therefore not numeric, giving NaN.  The rows this program allocates always
have 31 elements, so they coerce to NaN. -/
def toNumber (heap : List (List Dy)) : JsVal → JsVal
  | .num q => .num q
  | .undefined => .nan
  | .nan => .nan
  | .aref r =>
      match heap.getD r [] with
      | [] => .num 0
      | [q] => .num q
      | _ => .nan
  | .corrupt => .corrupt

/-- ES ToUint32: the unsigned 32-bit pattern of a value.  NaN, undefined and
the corrupt strings of this program (all of which contain a comma, hence are
non-numeric) map to 0. -/
def toUint32 (heap : List (List Dy)) (v : JsVal) : ℕ :=
  match toNumber heap v with
  | .num q => ((dyTrunc q).emod 4294967296).toNat
  | _ => 0

/-- Reinterpret an unsigned 32-bit pattern as a signed int32, the result
type of every JS bitwise operator. -/
def int32OfBits (u : ℕ) : ℤ :=
  if u < 2147483648 then (u : ℤ) else (u : ℤ) - 4294967296

/-- JS bitwise AND. -/
def jsAnd (heap : List (List Dy)) (a b : JsVal) : JsVal :=
  .num ((int32OfBits ((toUint32 heap a) &&& (toUint32 heap b)) : ℤ) : Dy)

/-- JS bitwise OR. -/
def jsOr (heap : List (List Dy)) (a b : JsVal) : JsVal :=
  .num ((int32OfBits ((toUint32 heap a) ||| (toUint32 heap b)) : ℤ) : Dy)

/-- JS bitwise XOR. -/
def jsXor (heap : List (List Dy)) (a b : JsVal) : JsVal :=
  .num ((int32OfBits ((toUint32 heap a) ^^^ (toUint32 heap b)) : ℤ) : Dy)

/-- JS left shift: left operand ToInt32, shift count ToUint32 modulo 32. -/
def jsShl (heap : List (List Dy)) (a b : JsVal) : JsVal :=
  .num ((int32OfBits (((toUint32 heap a) <<< ((toUint32 heap b) % 32)) % 4294967296) : ℤ) : Dy)

/-- JS `+`.  On two numbers it adds; an array-reference operand would make
`+` concatenate strings, which is outside the model and yields `corrupt`;
any other combination involves `undefined`/`NaN` and yields NaN. -/
def jsAdd (_heap : List (List Dy)) (a b : JsVal) : JsVal :=
  match a, b with
  | .corrupt, _ => .corrupt
  | _, .corrupt => .corrupt
  | .aref _, _ => .corrupt
  | _, .aref _ => .corrupt
  | .num p, .num q => .num (p + q)
  | _, _ => .nan

/-- JS `-` (always numeric, via ToNumber). -/
def jsSub (heap : List (List Dy)) (a b : JsVal) : JsVal :=
  match toNumber heap a, toNumber heap b with
  | .num p, .num q => .num (p - q)
  | .corrupt, _ => .corrupt
  | _, .corrupt => .corrupt
  | _, _ => .nan

/-- JS `*` (always numeric). -/
def jsMul (heap : List (List Dy)) (a b : JsVal) : JsVal :=
  match toNumber heap a, toNumber heap b with
  | .num p, .num q => .num (p * q)
  | .corrupt, _ => .corrupt
  | _, .corrupt => .corrupt
  | _, _ => .nan

/-- Translation of the source's only division, `v[x] /= 2`: division of a
double by the constant 2 is exact halving. -/
def jsHalf (heap : List (List Dy)) (a : JsVal) : JsVal :=
  match toNumber heap a with
  | .num p => .num (halfDy p)
  | .corrupt => .corrupt
  | _ => .nan

/-- JS `++` (numeric increment). -/
def jsIncr (heap : List (List Dy)) (a : JsVal) : JsVal :=
  match toNumber heap a with
  | .num p => .num (p + 1)
  | .corrupt => .corrupt
  | _ => .nan

/-- JS `--` (numeric decrement). -/
def jsDecr (heap : List (List Dy)) (a : JsVal) : JsVal :=
  match toNumber heap a with
  | .num p => .num (p - 1)
  | .corrupt => .corrupt
  | _ => .nan

/-- JS `>` on the values this program compares.  Any comparison with a
NaN-coercing operand is false.  The string corner (both operands array
references) compares joined strings lexicographically; every row this
program ever allocates has identical contents, so that comparison is also
false, which the NaN fallthrough already returns. -/
def jsGt (heap : List (List Dy)) (a b : JsVal) : Bool :=
  match toNumber heap a, toNumber heap b with
  | .num p, .num q => decide (q < p)
  | _, _ => false

/-- JS `<`, same coverage notes as `jsGt`. -/
def jsLt (heap : List (List Dy)) (a b : JsVal) : Bool :=
  match toNumber heap a, toNumber heap b with
  | .num p, .num q => decide (p < q)
  | _, _ => false

/-- JS strict equality `===`: no coercion; `NaN === NaN` is false; array
references compare by identity.  `corrupt` abstracts strings whose equality
the model does not track; no examined path compares them, and `false` is
recorded for those cases. -/
def jsSeq : JsVal → JsVal → Bool
  | .num p, .num q => decide (p = q)
  | .undefined, .undefined => true
  | .aref r, .aref r2 => decide (r = r2)
  | _, _ => false

/-- A JS array index: a non-negative integral number.  Any other key
(negative, fractional, NaN, undefined) is an ordinary property key, not an
array element. -/
def jsIndex : JsVal → Option ℕ
  | .num q => if q.e = 0 ∧ 0 ≤ q.m then some q.m.toNat else none
  | _ => none

/-- Read an array element at a known natural index; absent slots (holes or
past the end) read as `undefined`. -/
def jsGetArrN (l : List JsVal) (n : ℕ) : JsVal :=
  l.getD n .undefined

/-- Read an array element at a computed JS key.  Non-index keys were never
written by this program, so they read as `undefined`. -/
def jsGetArrI (l : List JsVal) (i : JsVal) : JsVal :=
  match jsIndex i with
  | some n => jsGetArrN l n
  | none => .undefined

/-- Write an array element at a natural index; writing past the end extends
the array with holes, as JS assignment does. -/
def jsSetArrN (l : List JsVal) (n : ℕ) (v : JsVal) : List JsVal :=
  if n < l.length then l.set n v
  else l ++ List.replicate (n - l.length) .undefined ++ [v]

/-- Write at a computed JS key.  A non-index key stores a plain property;
the only such write in the source (`screen[location]` for a negative or NaN
`location`) stores a property that no later expression reads, so dropping it
is observationally faithful. -/
def jsSetArrI (l : List JsVal) (i : JsVal) (v : JsVal) : List JsVal :=
  match jsIndex i with
  | some n => jsSetArrN l n v
  | none => l

/-- Source constant: `const SCREEN_WIDTH = 0x3f` (63, not 64). -/
def SCREEN_WIDTH : ℕ := 0x3f

/-- Source constant: `const SCREEN_HEIGHT = 0x1f` (31, not 32). -/
def SCREEN_HEIGHT : ℕ := 0x1f

/-- The mutable fields of the `JSip8` class.  `rowHeap` is the store of
inner arrays allocated by `clearScreen`; a `JsVal.aref r` in `screen` points
at `rowHeap[r]`.  The wall-clock field `lastCommandRun` and the
`requestAnimationFrame` scheduling are host-time concerns outside the model
(see `runCycle`). -/
structure JSip8 where
  memory : List JsVal
  stack : List JsVal
  pc : JsVal
  sp : JsVal
  v : List JsVal
  i : JsVal
  delayTimer : JsVal
  soundTimer : JsVal
  screen : List JsVal
  rowHeap : List (List Dy)
  deriving DecidableEq

/-- Translation of `reset()`: fresh hole-filled arrays for memory, stack and
registers, zeroed scalars, and a flat screen of 63·31 zeroes. -/
def reset : JSip8 where
  memory := List.replicate 4096 .undefined
  stack := List.replicate 16 .undefined
  pc := .num 0
  sp := .num 0
  v := List.replicate 16 .undefined
  i := .num 0
  delayTimer := .num 0
  soundTimer := .num 0
  screen := List.replicate (SCREEN_WIDTH * SCREEN_HEIGHT) (.num 0)
  rowHeap := []

/-- Translation of `executeDelayTimer()`. -/
def executeDelayTimer (s : JSip8) : JSip8 :=
  if jsGt s.rowHeap s.delayTimer (.num 0) then
    { s with delayTimer := jsDecr s.rowHeap s.delayTimer }
  else s

/-- Translation of `executeSoundTimer()` (the `console.log` beep is host
I/O). -/
def executeSoundTimer (s : JSip8) : JSip8 :=
  if jsGt s.rowHeap s.soundTimer (.num 0) then
    { s with soundTimer := jsDecr s.rowHeap s.soundTimer }
  else s

/-- Translation of `clearScreen()`:
`this.screen = new Array(0x3f).fill(new Array(0x1f).fill(0x0))`.
The inner array is allocated exactly once and `fill` stores that same
reference into all 63 outer slots, so the model allocates one fresh row on
the heap and points every slot at it. -/
def clearScreen (s : JSip8) : JSip8 :=
  { s with
    screen := List.replicate 0x3f (.aref s.rowHeap.length)
    rowHeap := s.rowHeap ++ [List.replicate 0x1f (0 : Dy)] }

/-- Translation of `drawPixel(x, y)`: the single-subtraction coordinate
adjustment against `SCREEN_WIDTH`/`SCREEN_HEIGHT`, the flat index
`x + y * SCREEN_WIDTH`, and the XOR toggle.  Returns the updated state and
the value the method returns (`hadAlreadyAPixel`, the previous cell
content). -/
def drawPixel (s : JSip8) (x0 y0 : JsVal) : JSip8 × JsVal :=
  let h := s.rowHeap
  let x := if jsGt h x0 (.num (SCREEN_WIDTH : Dy)) then jsSub h x0 (.num (SCREEN_WIDTH : Dy))
           else if jsLt h x0 (.num 0) then jsAdd h x0 (.num (SCREEN_WIDTH : Dy))
           else x0
  let y := if jsGt h y0 (.num (SCREEN_HEIGHT : Dy)) then jsSub h y0 (.num (SCREEN_HEIGHT : Dy))
           else if jsLt h y0 (.num 0) then jsAdd h y0 (.num (SCREEN_HEIGHT : Dy))
           else y0
  let location := jsAdd h x (jsMul h y (.num (SCREEN_WIDTH : Dy)))
  let hadAlreadyAPixel := jsGetArrI s.screen location
  ({ s with screen := jsSetArrI s.screen location (jsXor h hadAlreadyAPixel (.num 1)) },
   hadAlreadyAPixel)

/-- Errors the source can throw while executing one opcode.  The two
branches that throw (cases `0x9000` and `0xc000`, see `executeOpcode`) read
the identifiers `x` and `y`, which are declared with `const` inside the
braced block of case `0x8000` and are therefore not in scope there; reading
an undeclared identifier throws a `ReferenceError`. -/
inductive JsError where
  | referenceError
  deriving DecidableEq

/-- The 16-bit-ish instruction word `(byte1 << 8) | byte2`, kept as its
unsigned 32-bit pattern.  Every test the source performs on `opcode` —
masking with the non-negative constants `0xf000`/`0x0fff`/`0x00ff`/`0x000f`,
right-shifting then masking with `0x000f`, and equality against the
non-negative constants `0x00e0`/`0x0ee` — gives the same answer on the
signed int32 and on this unsigned pattern, so the translation works with the
pattern throughout. -/
def opcodeWord (heap : List (List Dy)) (b1 b2 : JsVal) : ℕ :=
  toUint32 heap (jsOr heap (jsShl heap b1 (.num 8)) b2)

/-- Inner loop of the `0xd000` case: `for (let x = 0; x < 8; x++)`, taking
the current column and the remaining iteration count.  The loop variable `x`
is used both as the column offset and as the register index in
`this.v[x] + x`, exactly as the source writes it; on a set sprite bit the
return value of `drawPixel` is assigned to `this.v[0xf]`, overwriting any
earlier collision result. -/
def drawCols (rowY : ℕ) : ℕ → ℕ → JSip8 → JsVal → JSip8
  | _, 0, s, _ => s
  | col, k+1, s, sprite =>
    let s1 :=
      if jsGt s.rowHeap (jsAnd s.rowHeap sprite (.num 0x80)) (.num 0) then
        let p := drawPixel s
          (jsAdd s.rowHeap (jsGetArrN s.v col) (.num (col : Dy)))
          (jsAdd s.rowHeap (jsGetArrN s.v rowY) (.num (rowY : Dy)))
        { p.1 with v := jsSetArrN p.1.v 0xf p.2 }
      else s
    drawCols rowY (col + 1) k s1 (jsShl s1.rowHeap sprite (.num 1))

/-- Outer loop of the `0xd000` case: `for (let y = 0; y < n; y++)`, taking
the current row and the remaining iteration count.  Each row reads
`this.memory[this.i + y]` and then runs the 8-column inner loop; `y` too is
a loop variable doubling as the register index in `this.v[y] + y`. -/
def drawRows : ℕ → ℕ → JSip8 → JSip8
  | _, 0, s => s
  | rowY, k+1, s =>
    let sprite := jsGetArrI s.memory (jsAdd s.rowHeap s.i (.num (rowY : Dy)))
    drawRows (rowY + 1) k (drawCols rowY 0 8 s sprite)

/-- Translation of `executeOpcode(byte1, byte2)`.  The outer `switch` on
`opcode & 0xf000` becomes the chain of equality tests below, each branch a
line-by-line translation of the corresponding case.  The `0x9000` and
`0xc000` branches throw a `ReferenceError` (see `JsError`); in both, the
throw happens before any mutation of `this` (case `0xc000` first evaluates
two local `const`s, including a `Math.random()` call, neither of which
touches interpreter state), so the error carries the input state
unchanged. -/
def executeOpcode (b1 b2 : JsVal) (s : JSip8) : Except (JsError × JSip8) JSip8 :=
  let h := s.rowHeap
  let w := opcodeWord h b1 b2
  if w &&& 0xf000 = 0x0000 then
    if w = 0x00e0 then .ok (clearScreen s)
    else if w = 0x0ee then
      let s1 := { s with pc := jsGetArrI s.stack s.sp }
      .ok { s1 with sp := jsDecr h s1.sp }
    else .ok s
  else if w &&& 0xf000 = 0x1000 then
    .ok { s with pc := .num ((w &&& 0x0fff : ℕ) : Dy) }
  else if w &&& 0xf000 = 0x2000 then
    let s1 := { s with sp := jsIncr h s.sp }
    let s2 := { s1 with stack := s1.stack ++ [s1.pc] }
    .ok { s2 with pc := .num ((w &&& 0x0fff : ℕ) : Dy) }
  else if w &&& 0xf000 = 0x3000 then
    let vIndex := (w >>> 8) &&& 0x000f
    if jsSeq (jsGetArrN s.v vIndex) (.num ((w &&& 0x00ff : ℕ) : Dy)) then
      .ok { s with pc := jsAdd h s.pc (.num 2) }
    else .ok s
  else if w &&& 0xf000 = 0x4000 then
    let vIndex := (w >>> 8) &&& 0x000f
    if ¬ jsSeq (jsGetArrN s.v vIndex) (.num ((w &&& 0x00ff : ℕ) : Dy)) then
      .ok { s with pc := jsAdd h s.pc (.num 2) }
    else .ok s
  else if w &&& 0xf000 = 0x5000 then
    let vxIndex := (w >>> 8) &&& 0x000f
    let vyIndex := (w >>> 4) &&& 0x000f
    if jsSeq (jsGetArrN s.v vxIndex) (jsGetArrN s.v vyIndex) then
      .ok { s with pc := jsAdd h s.pc (.num 2) }
    else .ok s
  else if w &&& 0xf000 = 0x6000 then
    let vx := (w >>> 8) &&& 0x000f
    let kk := w &&& 0x00ff
    .ok { s with v := jsSetArrN s.v vx (.num (kk : Dy)) }
  else if w &&& 0xf000 = 0x7000 then
    let vx := (w >>> 8) &&& 0x000f
    let kk := w &&& 0xff
    .ok { s with v := jsSetArrN s.v vx (.num ((vx : Dy) + (kk : Dy))) }
  else if w &&& 0xf000 = 0x8000 then
    let lastByte := w &&& 0x000f
    let x := (w >>> 8) &&& 0x000f
    let y := (w >>> 4) &&& 0x000f
    if lastByte = 0x0 then
      .ok { s with v := jsSetArrN s.v x (jsGetArrN s.v y) }
    else if lastByte = 0x1 then
      .ok { s with v := jsSetArrN s.v x (jsOr h (jsGetArrN s.v x) (jsGetArrN s.v y)) }
    else if lastByte = 0x2 then
      .ok { s with v := jsSetArrN s.v x (jsAnd h (jsGetArrN s.v x) (jsGetArrN s.v y)) }
    else if lastByte = 0x3 then
      .ok { s with v := jsSetArrN s.v x (jsXor h (jsGetArrN s.v x) (jsGetArrN s.v y)) }
    else if lastByte = 0x4 then
      if 255 < x + y then
        let s1 := { s with v := jsSetArrN s.v 0xf (.num 1) }
        let masked := jsAnd h (jsAdd h (jsGetArrN s1.v x) (jsGetArrN s1.v y)) (.num 0x00ff)
        .ok { s1 with v := jsSetArrN s1.v x masked }
      else
        let s1 := { s with v := jsSetArrN s.v 0xf (.num 0) }
        .ok { s1 with v := jsSetArrN s1.v x (jsAdd h (jsGetArrN s1.v x) (jsGetArrN s1.v y)) }
    else if lastByte = 0x5 then
      let s1 :=
        if jsGt h (jsGetArrN s.v x) (jsGetArrN s.v y) then
          { s with v := jsSetArrN s.v 0xf (.num 1) }
        else
          { s with v := jsSetArrN s.v 0xf (.num 0) }
      let s2 := { s1 with v := jsSetArrN s1.v x (jsSub h (jsGetArrN s1.v x) (jsGetArrN s1.v y)) }
      if jsLt h (jsGetArrN s2.v x) (.num 0) then
        .ok { s2 with v := jsSetArrN s2.v x (jsAdd h (jsGetArrN s2.v x) (.num 256)) }
      else .ok s2
    else if lastByte = 0x6 then
      let leastSignificantBit := jsAnd h (jsGetArrN s.v x) (.num 1)
      let flagVal : JsVal := if jsSeq leastSignificantBit (.num 1) then .num 1 else .num 0
      let s1 := { s with v := jsSetArrN s.v 0xf flagVal }
      .ok { s1 with v := jsSetArrN s1.v x (jsHalf h (jsGetArrN s1.v x)) }
    else if lastByte = 0x7 then
      let s1 :=
        if jsGt h (jsGetArrN s.v y) (jsGetArrN s.v x) then
          { s with v := jsSetArrN s.v 0xf (.num 1) }
        else
          { s with v := jsSetArrN s.v 0xf (.num 0) }
      let s2 := { s1 with v := jsSetArrN s1.v x (jsSub h (jsGetArrN s1.v y) (jsGetArrN s1.v x)) }
      if jsLt h (jsGetArrN s2.v x) (.num 0) then
        .ok { s2 with v := jsSetArrN s2.v x (jsAdd h (jsGetArrN s2.v x) (.num 256)) }
      else .ok s2
    else if lastByte = 0xe then
      let s1 := { s with v := jsSetArrN s.v 0xf (jsAnd h (jsGetArrN s.v x) (.num 0x80)) }
      .ok { s1 with v := jsSetArrN s1.v x (jsShl h (jsGetArrN s1.v x) (.num 1)) }
    else .ok s
  else if w &&& 0xf000 = 0x9000 then
    .error (.referenceError, s)
  else if w &&& 0xf000 = 0xa000 then
    .ok { s with i := .num ((w &&& 0x0fff : ℕ) : Dy) }
  else if w &&& 0xf000 = 0xb000 then
    .ok { s with pc := jsAdd h (.num ((w &&& 0x0fff : ℕ) : Dy)) (jsGetArrN s.v 0) }
  else if w &&& 0xf000 = 0xc000 then
    .error (.referenceError, s)
  else if w &&& 0xf000 = 0xd000 then
    .ok (drawRows 0 (w &&& 0x000f) s)
  else if w &&& 0xf000 = 0xe000 then
    .ok s
  else
    .ok s

/-- One executed iteration of `run()`, i.e. the body of its elapsed-time
branch: tick both timers, execute the opcode fetched at `pc`, then
`this.pc += 2` unconditionally.  The wall-clock gate
(`now - lastCommandRun > 1000`) and the `requestAnimationFrame`
rescheduling decide only when this body runs and are host concerns.  A
thrown `ReferenceError` propagates out before the `pc += 2` line, so the
error side carries the state at the throw. -/
def runCycle (s : JSip8) : Except (JsError × JSip8) JSip8 :=
  let s1 := executeDelayTimer s
  let s2 := executeSoundTimer s1
  match executeOpcode (jsGetArrI s2.memory s2.pc)
      (jsGetArrI s2.memory (jsAdd s2.rowHeap s2.pc (.num 1))) s2 with
  | .error e => .error e
  | .ok s3 => .ok { s3 with pc := jsAdd s3.rowHeap s3.pc (.num 2) }

/-- Observation function: read framebuffer cell `(row, col)` through the
nested representation `clearScreen` builds, following the row reference
into the heap (models the JS expression `screen[row][col]`). -/
def cellRead (s : JSip8) (row col : ℕ) : Option Dy :=
  match s.screen.getD row .undefined with
  | .aref r => (s.rowHeap.getD r []).get? col
  | _ => none

/-- Observation function: write framebuffer cell `(row, col)` through the
nested representation, mutating the row object that `screen[row]` references
(models the JS assignment `screen[row][col] = q` under reference
semantics). -/
def cellWrite (s : JSip8) (row col : ℕ) (q : Dy) : JSip8 :=
  match s.screen.getD row .undefined with
  | .aref r => { s with rowHeap := s.rowHeap.set r ((s.rowHeap.getD r []).set col q) }
  | _ => s

/-- A fully concrete machine state for the executions below: zeroed
registers, program counter, index and timers, a fresh 16-hole stack, and the
flat all-zero screen that `reset` builds; memory and registers are
overridden per scenario. -/
def testBase : JSip8 where
  memory := []
  stack := List.replicate 16 .undefined
  pc := .num 0
  sp := .num 0
  v := List.replicate 16 (.num 0)
  i := .num 0
  delayTimer := .num 0
  soundTimer := .num 0
  screen := List.replicate (SCREEN_WIDTH * SCREEN_HEIGHT) (.num 0)
  rowHeap := []

/-- Program consisting of the single jump `1nnn` with nnn = 0x234 (bytes
0x12 0x34) at address 0. -/
def jumpState : JSip8 :=
  { testBase with memory := [.num 0x12, .num 0x34] }

/-- Program with `CALL 0x004` (bytes 0x20 0x04) at address 0 and `RET`
(bytes 0x00 0xee) at address 6, which is where the call cycle actually
lands (nnn + 2). -/
def callRetState : JSip8 :=
  { testBase with
    memory := [.num 0x20, .num 0x04, .undefined, .undefined, .undefined, .undefined, .num 0x00, .num 0xee] }

/-- Registers with V1 = 7, for the add-immediate scenario. -/
def addImmState : JSip8 :=
  { testBase with v := (List.replicate 16 (.num 0)).set 1 (.num 7) }

/-- Registers with V1 = 200 and V2 = 100, for the add-registers scenario
(the sum 300 exceeds 255, so the claim demands a carry and a wrap). -/
def addRegState : JSip8 :=
  { testBase with v := ((List.replicate 16 (.num 0)).set 1 (.num 200)).set 2 (.num 100) }

/-- Registers with V1 = 128 = 0x80 (most-significant bit set), for the
shift-left scenario. -/
def shlState : JSip8 :=
  { testBase with v := (List.replicate 16 (.num 0)).set 1 (.num 128) }

/-- Draw scenario: instruction D121 (x-nibble 1, y-nibble 2, one row),
sprite byte 0xc0 (two leading set bits) at I = 0, registers V0 = 0,
V1 = 10, V2 = 5, and a 340-cell screen (large enough to contain every cell
involved) whose only lit pixel is flat cell 0.  Under
the claim the sprite origin is (V1, V2) = (10, 5), so the toggled pixels
would be flat cells 10 + 5·63 = 325 and 326 and nothing near cell 0 would
change. -/
def drawState : JSip8 :=
  { testBase with
    memory := [.num 0xc0]
    v := (((List.replicate 16 (.num 0)).set 0 (.num 0)).set 1 (.num 10)).set 2 (.num 5)
    screen := (List.replicate 340 (.num 0)).set 0 (.num 1) }

/-- A four-cell screen, large enough for the two cells the wraparound
scenario inspects; the coordinate adjustment in `drawPixel` does not depend
on the screen contents. -/
def smallBase : JSip8 :=
  { testBase with screen := List.replicate 4 (.num 0) }

/-- Timer scenario: DelayTimer = 3, SoundTimer = 0. -/
def timerState : JSip8 :=
  { testBase with delayTimer := .num ((3 : ℕ) : Dy), soundTimer := .num ((0 : ℕ) : Dy) }

/-- Unfolding lemma for the `Dy` order. -/
theorem dyLt_def (a b : Dy) : a < b ↔ a.m * 2 ^ b.e < b.m * 2 ^ a.e := Iff.rfl

/-- Unfolding lemma for `Dy` subtraction. -/
theorem dySub_def (a b : Dy) :
    a - b = canonDy (a.m * 2 ^ b.e - b.m * 2 ^ a.e) (a.e + b.e) := rfl

/-- Unfolding lemma for the natural-number embedding into `Dy`. -/
theorem dyNatCast_def (n : ℕ) : ((n : ℕ) : Dy) = ⟨(n : ℤ), 0⟩ := rfl

/-- One delay-timer tick on a natural-valued counter: `d` becomes `d - 1`
with natural (saturating) subtraction, because the decrement is guarded by
`delayTimer > 0`. -/
theorem executeDelayTimer_natStep (s : JSip8) (d : ℕ) (h : s.delayTimer = .num d) :
    (executeDelayTimer s).delayTimer = .num ((d - 1 : ℕ) : Dy) := by
  cases d with
  | zero =>
      have hc : jsGt s.rowHeap (JsVal.num ((0 : ℕ) : Dy)) (JsVal.num 0) = false := rfl
      simp [executeDelayTimer, h, hc]
  | succ n =>
      have hlt : (0 : Dy) < ((n + 1 : ℕ) : Dy) := by
        show (Int.ofNat 0) * 2 ^ 0 < ((n + 1 : ℕ) : ℤ) * 2 ^ 0
        positivity
      have hc : jsGt s.rowHeap (JsVal.num ((n + 1 : ℕ) : Dy)) (JsVal.num 0) = true := by
        show decide ((0 : Dy) < ((n + 1 : ℕ) : Dy)) = true
        exact decide_eq_true hlt
      have hsub : ((n + 1 : ℕ) : Dy) - 1 = ((n : ℕ) : Dy) := by
        show (⟨((n + 1 : ℕ) : ℤ) * 2 ^ 0 - 1 * 2 ^ 0, 0⟩ : Dy) = ⟨(n : ℤ), 0⟩
        exact congrArg (fun z => Dy.mk z 0) (by push_cast; ring)
      have hdec : jsDecr s.rowHeap (JsVal.num ((n + 1 : ℕ) : Dy)) = .num ((n : ℕ) : Dy) := by
        show JsVal.num (((n + 1 : ℕ) : Dy) - 1) = JsVal.num ((n : ℕ) : Dy)
        rw [hsub]
      simp [executeDelayTimer, h, hc, hdec]

/-- One sound-timer tick on a natural-valued counter, same shape as the
delay tick. -/
theorem executeSoundTimer_natStep (s : JSip8) (e : ℕ) (h : s.soundTimer = .num e) :
    (executeSoundTimer s).soundTimer = .num ((e - 1 : ℕ) : Dy) := by
  cases e with
  | zero =>
      have hc : jsGt s.rowHeap (JsVal.num ((0 : ℕ) : Dy)) (JsVal.num 0) = false := rfl
      simp [executeSoundTimer, h, hc]
  | succ n =>
      have hlt : (0 : Dy) < ((n + 1 : ℕ) : Dy) := by
        show (Int.ofNat 0) * 2 ^ 0 < ((n + 1 : ℕ) : ℤ) * 2 ^ 0
        positivity
      have hc : jsGt s.rowHeap (JsVal.num ((n + 1 : ℕ) : Dy)) (JsVal.num 0) = true := by
        show decide ((0 : Dy) < ((n + 1 : ℕ) : Dy)) = true
        exact decide_eq_true hlt
      have hsub : ((n + 1 : ℕ) : Dy) - 1 = ((n : ℕ) : Dy) := by
        show (⟨((n + 1 : ℕ) : ℤ) * 2 ^ 0 - 1 * 2 ^ 0, 0⟩ : Dy) = ⟨(n : ℤ), 0⟩
        exact congrArg (fun z => Dy.mk z 0) (by push_cast; ring)
      have hdec : jsDecr s.rowHeap (JsVal.num ((n + 1 : ℕ) : Dy)) = .num ((n : ℕ) : Dy) := by
        show JsVal.num (((n + 1 : ℕ) : Dy) - 1) = JsVal.num ((n : ℕ) : Dy)
        rw [hsub]
      simp [executeSoundTimer, h, hc, hdec]

/-- Iterating the delay tick `k` times from a natural-valued counter `d`
saturates at zero: the result is `d - k` in natural subtraction. -/
theorem executeDelayTimer_iterate (k : ℕ) :
    ∀ (s : JSip8) (d : ℕ), s.delayTimer = .num d →
      (executeDelayTimer^[k] s).delayTimer = .num ((d - k : ℕ) : Dy) := by
  induction k with
  | zero => intro s d h; simpa using h
  | succ n ih =>
      intro s d h
      rw [Function.iterate_succ_apply]
      have step := executeDelayTimer_natStep s d h
      have := ih (executeDelayTimer s) (d - 1) step
      simpa [Nat.sub_sub, Nat.add_comm] using this

/-- Iterating the sound tick `k` times, same statement as for the delay
tick. -/
theorem executeSoundTimer_iterate (k : ℕ) :
    ∀ (s : JSip8) (e : ℕ), s.soundTimer = .num e →
      (executeSoundTimer^[k] s).soundTimer = .num ((e - k : ℕ) : Dy) := by
  induction k with
  | zero => intro s e h; simpa using h
  | succ n ih =>
      intro s e h
      rw [Function.iterate_succ_apply]
      have step := executeSoundTimer_natStep s e h
      have := ih (executeSoundTimer s) (e - 1) step
      simpa [Nat.sub_sub, Nat.add_comm] using this

/-- C1: evidence against the claim that after executing the jump `1nnn`
the next fetch happens at address nnn.  Running one executed cycle on a
machine whose instruction at address 0 is `0x1234` (jump to 0x234) leaves
the program counter at 0x236 = nnn + 2: `run` performs `pc += 2` after
every opcode, jumps included, so the next fetch happens at nnn + 2, not at
nnn. -/
theorem jump_cycle_fetches_past_target :
    Option.map JSip8.pc (runCycle jumpState).toOption = some (.num 0x236) ∧
    Option.map JSip8.pc (runCycle jumpState).toOption ≠ some (.num 0x234) := by
  constructor
  · rfl
  · decide

/-- C2: evidence against the claim that `7xkk` sets `V[x]` to
`(V[x] + kk) mod 256`.  Executing `0x7105` (x = 1, kk = 5) with V1 = 7
stores 6 = 1 + 5 into V1 — the code adds the register's numeric index, not
its stored value, which the claim would require to give 12. -/
theorem add_immediate_uses_register_index :
    Option.map (fun s => jsGetArrN s.v 1)
      (executeOpcode (.num 0x71) (.num 0x05) addImmState).toOption = some (.num 6) ∧
    Option.map (fun s => jsGetArrN s.v 1)
      (executeOpcode (.num 0x71) (.num 0x05) addImmState).toOption ≠ some (.num 12) := by
  constructor
  · rfl
  · decide

/-- C3: evidence against the claim that `8xy4` sets VF to the carry of
`V[x] + V[y]` and stores the sum modulo 256.  Executing `0x8124` with
V1 = 200 and V2 = 100 leaves VF = 0 and V1 = 300: the carry test compares
the register indices (1 + 2 > 255 is false), so the flag is never set and
the sum is stored unmasked, leaving V1 outside 0..255.  The claim would
require VF = 1 and V1 = 44. -/
theorem add_registers_tests_indices_and_skips_mask :
    Option.map (fun s => (jsGetArrN s.v 0xf, jsGetArrN s.v 1))
      (executeOpcode (.num 0x81) (.num 0x24) addRegState).toOption
      = some (.num 0, .num 300) ∧
    Option.map (fun s => (jsGetArrN s.v 0xf, jsGetArrN s.v 1))
      (executeOpcode (.num 0x81) (.num 0x24) addRegState).toOption
      ≠ some (.num 1, .num 44) := by
  constructor
  · rfl
  · decide

/-- C8: evidence against the claim that `8xyE` normalizes VF to exactly
0 or 1 and wraps `V[x]` modulo 256.  Executing `0x812e` with V1 = 128
leaves VF = 128 (the raw masked byte `v[x] & 0x80`) and V1 = 256 (the
unwrapped shift).  The claim would require VF = 1 and V1 = 0. -/
theorem shift_left_raw_flag_and_no_wrap :
    Option.map (fun s => (jsGetArrN s.v 0xf, jsGetArrN s.v 1))
      (executeOpcode (.num 0x81) (.num 0x2e) shlState).toOption
      = some (.num 128, .num 256) ∧
    Option.map (fun s => (jsGetArrN s.v 0xf, jsGetArrN s.v 1))
      (executeOpcode (.num 0x81) (.num 0x2e) shlState).toOption
      ≠ some (.num 1, .num 0) := by
  constructor
  · rfl
  · decide

/-- C7: evidence against the claimed call/return discipline.  From
`callRetState` (CALL 0x004 at address 0, RET at address 6 where the call
cycle lands), two executed cycles complete without any stack-overflow or
stack-underflow failure and leave PC = NaN — not 2, the address after the
original CALL.  The CALL pushed the call instruction's own address 0 with
`Array.prototype.push`, which appended it at index 16 of the 16-hole stack
(growing it to 17 entries, unchecked), while RET read `stack[sp] =
stack[1]`, a hole, so PC became `undefined` and then `undefined + 2 = NaN`.
Only the stack-pointer depth (back to 0) matches the claim. -/
theorem call_ret_loses_return_address :
    Option.map (fun s => (s.pc, s.sp, s.stack.length, jsGetArrN s.stack 16))
      ((runCycle callRetState).bind runCycle).toOption
      = some (.nan, .num 0, 17, .num 0) ∧
    Option.map JSip8.pc ((runCycle callRetState).bind runCycle).toOption ≠ some (.num 2) := by
  constructor
  · rfl
  · decide

/-- C4: evidence against the claimed draw semantics.  Executing `0xd121`
(one sprite row, x-nibble 1, y-nibble 2) on `drawState` (sprite byte 0xc0
at I = 0, V0 = 0, V1 = 10, V2 = 5, only flat cell 0 lit) would, per the
claim, toggle the pixels at (V1, V2) = (10, 5) and (11, 5) — flat cells 325
and 326 — and leave cell 0 alone.  Instead the code, whose loop variables
shadow the operand registers, toggles cell 0 off and cell 11 on, and
finishes with VF = 0 even though its own first toggle erased a lit pixel:
VF holds only the last `drawPixel` return, not the aggregated collision. -/
theorem draw_targets_loop_registers_and_drops_collisions :
    jsGetArrN drawState.screen 0 = .num 1 ∧
    Option.map
      (fun s => (jsGetArrN s.v 0xf, jsGetArrN s.screen 0, jsGetArrN s.screen 11,
                 jsGetArrN s.screen 325, jsGetArrN s.screen 326))
      (executeOpcode (.num 0xd1) (.num 0x21) drawState).toOption
      = some (.num 0, .num 0, .num 1, .num 0, .num 0) := by
  constructor
  · decide
  · rfl

/-- C6: evidence against the claimed 64×32 grid with modulo wraparound.
The framebuffer allocated at reset has 0x3f · 0x1f = 1953 cells, not
64 · 32 = 2048; and `drawPixel` at x = 64, y = 0 writes flat cell 1
(column 1), because the adjustment is a single subtraction of
SCREEN_WIDTH = 63 rather than the reduction modulo 64 that the claim
requires (which would write column 0, which stays clear). -/
theorem drawPixel_subtracts_width_instead_of_mod :
    testBase.screen.length = 1953 ∧
    (drawPixel smallBase (.num 64) (.num 0)).1.screen.getD 1 .undefined = .num 1 ∧
    (drawPixel smallBase (.num 64) (.num 0)).1.screen.getD 0 .undefined = .num 0 := by
  refine ⟨?_, by decide, by decide⟩
  show (List.replicate (SCREEN_WIDTH * SCREEN_HEIGHT) (JsVal.num 0)).length = 1953
  rw [List.length_replicate]
  decide

/-- C5: evidence against the claim that after `00E0` the 2048 cells read
false and are independent.  `clearScreen` rebuilds the screen as 63 outer
slots (so only 63 · 31 = 1953 cells, not 2048) that all hold the same
reference to one shared row object; reading cell (1, 0) gives 0, but
writing 1 into cell (0, 0) through row 0's reference makes cell (1, 0)
read 1 as well — the rows share a single backing instance. -/
theorem clearScreen_shares_one_row_instance :
    (clearScreen testBase).screen.length = 63 ∧
    (clearScreen testBase).screen.getD 0 .undefined = .aref 0 ∧
    (clearScreen testBase).screen.getD 1 .undefined = .aref 0 ∧
    cellRead (clearScreen testBase) 1 0 = some 0 ∧
    cellRead (cellWrite (clearScreen testBase) 0 0 1) 1 0 = some 1 := by
  refine ⟨by decide, by decide, by decide, by decide, by decide⟩

/-- C9: each timer decrement is a no-op at zero and never goes negative:
from natural counter values `d` and `e`, ticking the delay timer `k` times
leaves `d - k` (natural, i.e. saturating, subtraction — max(d − k, 0)), and
likewise for the sound timer. -/
theorem timers_saturate_at_zero (s : JSip8) (d e k : ℕ)
    (hd : s.delayTimer = .num d) (he : s.soundTimer = .num e) :
    (executeDelayTimer^[k] s).delayTimer = .num ((d - k : ℕ) : Dy) ∧
    (executeSoundTimer^[k] s).soundTimer = .num ((e - k : ℕ) : Dy) :=
  ⟨executeDelayTimer_iterate k s d hd, executeSoundTimer_iterate k s e he⟩

/-- Witness for C9 at the claim's concrete figures: ticking 5 times from
DelayTimer = 3 leaves 0, and ticking the zero sound timer leaves it 0. -/
theorem timers_saturate_at_zero_witness :
    (executeDelayTimer^[5] timerState).delayTimer = .num ((3 - 5 : ℕ) : Dy) ∧
    (executeSoundTimer^[5] timerState).soundTimer = .num ((0 - 5 : ℕ) : Dy) :=
  timers_saturate_at_zero timerState 3 0 5 rfl rfl

/-- C10: any instruction word whose top nibble is 0x9 or 0xC throws a
`ReferenceError`: those switch branches read `x` (and `y`), which are
block-scoped to the 0x8000 case, so execution aborts with the state
unchanged (the error carries the input state). -/
theorem sne_and_rnd_throw_reference_error (b1 b2 : JsVal) (s : JSip8)
    (h : opcodeWord s.rowHeap b1 b2 &&& 0xf000 = 0x9000 ∨
         opcodeWord s.rowHeap b1 b2 &&& 0xf000 = 0xc000) :
    executeOpcode b1 b2 s = .error (.referenceError, s) := by
  rcases h with h | h <;> simp [executeOpcode, h]

/-- Witness for C10: the concrete instructions `0x9120` (SNE V1, V2) and
`0xc123` (RND V1, 0x23) both abort with a `ReferenceError` and an unchanged
state. -/
theorem sne_and_rnd_throw_reference_error_witness :
    executeOpcode (.num 0x91) (.num 0x20) testBase = .error (.referenceError, testBase) ∧
    executeOpcode (.num 0xc1) (.num 0x23) testBase = .error (.referenceError, testBase) :=
  ⟨sne_and_rnd_throw_reference_error (.num 0x91) (.num 0x20) testBase (Or.inl (by decide)),
   sne_and_rnd_throw_reference_error (.num 0xc1) (.num 0x23) testBase (Or.inr (by decide))⟩
